import Mathlib

/-!
Shallow embedding of `src/components/CleaningForm.tsx` (repository
Totix777/sb1-esg6up): room classification, submission validation,
notification dispatch and the submit workflow of the cleaning form.

Strings are modelled by Lean `String`; JavaScript `s.slice(-2)` and
`trim`, and the regex `[GMBP]1$`, are modelled on the underlying
character list.  The external email provider (`emailjs.send`) is an
oracle parameter `provider : EmailPayload → Except String Unit`; the
`try/catch` in `sendEmailNotification` becomes a total function that
returns an optional console log instead of throwing.  The persistence
sink (`onSave`) and the dispatched notification are recorded as fields
of the `SubmitResult` trace.
-/

namespace CleaningForm

/-- CleaningTask mirrors `Omit<CleaningTask, 'id'>` as used by the form:
`date`, `time`, `roomNumber`, the five checklist booleans, `notes` and
`staffName`. -/
structure CleaningTask where
  date : String
  time : String
  roomNumber : String
  visualCleaning : Bool
  maintenanceCleaning : Bool
  basicRoomCleaning : Bool
  bedCleaning : Bool
  windowsCurtainsCleaning : Bool
  notes : String
  staffName : String
deriving Repr, DecidableEq

/-- Local component state of `CleaningForm`: the `completedToday`,
`error`, `images` and `formData` `useState` cells. -/
structure FormState where
  completedToday : Bool
  error : String
  images : List String
  formData : CleaningTask
deriving Repr, DecidableEq

/-- The `templateParams` object built in `sendEmailNotification`
(lines 44-53 of the source). -/
structure EmailPayload where
  to_email : String
  room_number : String
  notes : String
  images : String
  date : String
  service_id : String
  template_id : String
  user_id : String
deriving Repr, DecidableEq

/-- JavaScript `s.slice(-2)`: the last two characters of `s`, or all of
`s` when it is shorter than two characters (negative start indices clamp
to 0). -/
def jsSliceLast2 (s : String) : String :=
  ⟨s.data.drop (s.data.length - 2)⟩

/-- JavaScript `String.prototype.trim`: drop leading and trailing
whitespace characters. -/
def jsTrim (s : String) : String :=
  ⟨((s.data.dropWhile Char.isWhitespace).reverse.dropWhile Char.isWhitespace).reverse⟩

/-- The `specialRooms` suffix-to-label table inside `getRoomLabel`
(lines 31-36 of the source). -/
def specialRooms : List (String × String) :=
  [("G1", "Gäste WC"), ("M1", "Mitarbeiter WC"), ("B1", "Behinderten WC"), ("P1", "Pflegebad")]

/-- getRoomLabel (lines 30-40): `specialRooms[number.slice(-2)] || number`.
The labels are non-empty, hence truthy, so JavaScript `||` reduces to:
the table entry when the lookup hits, the room number itself otherwise. -/
def getRoomLabel (number : String) : String :=
  match specialRooms.lookup (jsSliceLast2 number) with
  | some label => label
  | none => number

/-- isSpecialRoom (line 125): truthiness of `roomNumber.match(/[GMBP]1$/)`.
The regex matches exactly when the string ends with `G1`, `M1`, `B1` or
`P1`. -/
def isSpecialRoom (roomNumber : String) : Bool :=
  decide (List.IsSuffix ['G', '1'] roomNumber.data)
    || decide (List.IsSuffix ['M', '1'] roomNumber.data)
    || decide (List.IsSuffix ['B', '1'] roomNumber.data)
    || decide (List.IsSuffix ['P', '1'] roomNumber.data)

/-- RoomClassification pairs the two classification outputs the component
computes for a room identifier: the display label (`getRoomLabel`) and
the special-room flag (`isSpecialRoom`). -/
structure RoomClassification where
  label : String
  isSpecial : Bool
deriving Repr, DecidableEq

/-- classify bundles `getRoomLabel` and `isSpecialRoom` into the
classifier contract `classify(roomNumber) -> { label, isSpecial }`. -/
def classify (number : String) : RoomClassification :=
  { label := getRoomLabel number, isSpecial := isSpecialRoom number }

/-- buildTemplateParams: the `templateParams` literal of
`sendEmailNotification` (lines 44-53).  `now` stands for
`new Date().toLocaleString('de-DE')` evaluated at dispatch time. -/
def buildTemplateParams (notes roomNumber : String) (images : List String) (now : String) :
    EmailPayload :=
  { to_email := "b.marconi@kv-vorderpfalz.drk.de"
    room_number := roomNumber
    notes := notes
    images := String.intercalate "\n" images
    date := now
    service_id := "service_drk"
    template_id := "template_notes"
    user_id := "your_public_key" }

/-- sendEmailNotification (lines 42-70): build the payload, call the
provider, and catch any error, turning it into a console log.  The
function is total: it returns the attempted payload together with the
optional log line, and never propagates the provider's failure. -/
def sendEmailNotification (provider : EmailPayload → Except String Unit)
    (notes roomNumber : String) (images : List String) (now : String) :
    EmailPayload × Option String :=
  match provider (buildTemplateParams notes roomNumber images now) with
  | Except.ok _ => (buildTemplateParams notes roomNumber images now, none)
  | Except.error e =>
      (buildTemplateParams notes roomNumber images now,
        some ("Failed to send email notification: " ++ e))

/-- The fixed validation message set on line 95 of the source. -/
def validationError : String := "Bitte wählen Sie mindestens eine Reinigungsart aus"

/-- hasSelectedCleaning (lines 88-92): the disjunction of the five
checklist booleans of the draft. -/
def hasSelectedCleaning (fd : CleaningTask) : Bool :=
  fd.visualCleaning || fd.maintenanceCleaning || fd.basicRoomCleaning
    || fd.bedCleaning || fd.windowsCurtainsCleaning

/-- Observable outcome of one `handleSubmit` call: the new component
state, the record handed to `onSave` (if any), the notification payload
handed to the provider (if any), and the console log produced by a
failed delivery (if any). -/
structure SubmitResult where
  state : FormState
  savedRecord : Option CleaningTask
  notification : Option EmailPayload
  log : Option String
deriving Repr, DecidableEq

/-- handleSubmit (lines 85-123).  `roomNumber` is the component prop,
`nowTime` stands for `new Date().toLocaleTimeString('de-DE', ...)` and
`nowDateTime` for `new Date().toLocaleString('de-DE')` at submission
time.  If no checklist boolean is set, the error message is set and
nothing else happens; otherwise the error is cleared, the notification
is dispatched when the trigger condition holds, the time-stamped record
is handed to `onSave`, `completedToday` is set, the images are cleared
and the draft's flags and notes are reset. -/
def handleSubmit (provider : EmailPayload → Except String Unit)
    (roomNumber nowTime nowDateTime : String) (st : FormState) : SubmitResult :=
  if !hasSelectedCleaning st.formData then
    { state := { st with error := validationError }
      savedRecord := none
      notification := none
      log := none }
  else
    let sent : Option (EmailPayload × Option String) :=
      if jsTrim st.formData.notes != "" || st.images.length > 0 then
        some (sendEmailNotification provider st.formData.notes roomNumber st.images nowDateTime)
      else
        none
    { state :=
        { st with
          error := ""
          completedToday := true
          images := []
          formData :=
            { st.formData with
              visualCleaning := false
              maintenanceCleaning := false
              basicRoomCleaning := false
              bedCleaning := false
              windowsCurtainsCleaning := false
              notes := "" } }
      savedRecord := some { st.formData with time := nowTime }
      notification := sent.map Prod.fst
      log := sent.bind Prod.snd }

/-- A draft for room 101 with every checklist boolean false, empty notes
and a staff name; used as the base of the concrete test states. -/
def baseTask : CleaningTask :=
  { date := "2024-01-01", time := "08:00", roomNumber := "101",
    visualCleaning := false, maintenanceCleaning := false, basicRoomCleaning := false,
    bedCleaning := false, windowsCurtainsCleaning := false, notes := "", staffName := "Anna" }

/-- A state whose draft has all five checklist booleans false but notes
and a photo attached: submission must be rejected with everything kept. -/
def rejectState : FormState :=
  { completedToday := false, error := "", images := ["data:image/png;base64,AAA"],
    formData := { baseTask with notes := "Fleck im Flur" } }

/-- A state whose draft has exactly one checklist boolean set, no notes
and no photos: submission must succeed without any notification. -/
def okState : FormState :=
  { completedToday := false, error := "", images := [],
    formData := { baseTask with visualCleaning := true } }

/-- A valid state with whitespace-only notes and no photos: submission
succeeds and must not dispatch a notification. -/
def wsState : FormState :=
  { completedToday := false, error := "", images := [],
    formData := { baseTask with visualCleaning := true, notes := "  " } }

/-- A valid state with non-blank notes and two photos: submission
succeeds and dispatches a notification. -/
def noteState : FormState :=
  { completedToday := false, error := "", images := ["data:image/png;base64,AAA", "data:image/png;base64,BBB"],
    formData := { baseTask with maintenanceCleaning := true, notes := "Bitte Teppich prüfen" } }

/-- A provider oracle whose delivery always succeeds. -/
def okProvider : EmailPayload → Except String Unit := fun _ => Except.ok ()

/-- A provider oracle whose delivery always fails, modelling a network or
provider error raised by `emailjs.send`. -/
def failProvider : EmailPayload → Except String Unit := fun _ => Except.error "network error"

/-- The last two characters of `s` equal the two-character string `⟨[a, b]⟩`
exactly when `[a, b]` is a suffix of the character list of `s`. -/
lemma slice_eq_iff_suffix (s : String) (a b : Char) :
    (jsSliceLast2 s = ⟨[a, b]⟩) ↔ List.IsSuffix [a, b] s.data := by
  rw [jsSliceLast2, String.ext_iff]
  show s.data.drop (s.data.length - 2) = [a, b] ↔ _
  rw [List.suffix_iff_eq_drop]
  simp [eq_comm]

/-- The lookup in the four-entry `specialRooms` table hits exactly when the
key is one of the four reserved suffixes. -/
lemma lookup_specialRooms (q : String) :
    (specialRooms.lookup q).isSome =
      ((q == "G1") || (q == "M1") || (q == "B1") || (q == "P1")) := by
  cases h1 : q == "G1" <;> cases h2 : q == "M1" <;> cases h3 : q == "B1" <;>
    cases h4 : q == "P1" <;> simp [specialRooms, List.lookup, h1, h2, h3, h4]

/-- Boolean form of `slice_eq_iff_suffix`. -/
lemma slice_beq_eq_suffix (s : String) (a b : Char) :
    (jsSliceLast2 s == ⟨[a, b]⟩) = decide (List.IsSuffix [a, b] s.data) := by
  rw [Bool.eq_iff_iff, beq_iff_eq, decide_eq_true_iff]
  exact slice_eq_iff_suffix s a b

/-- The `specialRooms` lookup on the last two characters succeeds exactly
when the regex test `isSpecialRoom` holds. -/
lemma lookup_isSome_eq_isSpecialRoom (s : String) :
    (specialRooms.lookup (jsSliceLast2 s)).isSome = isSpecialRoom s := by
  rw [lookup_specialRooms, isSpecialRoom]
  have hG : ("G1" : String) = ⟨['G', '1']⟩ := rfl
  have hM : ("M1" : String) = ⟨['M', '1']⟩ := rfl
  have hB : ("B1" : String) = ⟨['B', '1']⟩ := rfl
  have hP : ("P1" : String) = ⟨['P', '1']⟩ := rfl
  rw [hG, hM, hB, hP, slice_beq_eq_suffix, slice_beq_eq_suffix, slice_beq_eq_suffix,
    slice_beq_eq_suffix]

/-- Whatever the provider answers, the payload component of
`sendEmailNotification` is the `templateParams` record it builds. -/
lemma sendEmailNotification_fst (provider : EmailPayload → Except String Unit)
    (notes roomNumber : String) (images : List String) (now : String) :
    (sendEmailNotification provider notes roomNumber images now).1 =
      buildTemplateParams notes roomNumber images now := by
  unfold sendEmailNotification
  cases provider (buildTemplateParams notes roomNumber images now) <;> rfl

/-- C1: a draft whose five checklist booleans are all false is rejected
with the single fixed message and nothing else happens, while a draft
with at least one boolean true passes validation and a record is handed
to the sink — in both cases for every room, notes content and photo
list. -/
theorem validator_minimum_selection (provider : EmailPayload → Except String Unit)
    (rp nt nd : String) (st : FormState) :
    (hasSelectedCleaning st.formData = false →
        handleSubmit provider rp nt nd st =
          { state := { st with error := validationError }
            savedRecord := none
            notification := none
            log := none })
    ∧ (hasSelectedCleaning st.formData = true →
        (handleSubmit provider rp nt nd st).savedRecord.isSome = true) := by
  constructor
  · intro h
    unfold handleSubmit
    rw [h]
    rfl
  · intro h
    unfold handleSubmit
    rw [h]
    rfl

/-- C1 witness: the all-false draft of `rejectState` is rejected with the
fixed message even though notes and a photo are attached, and `okState`
with a single checked box is saved. -/
theorem validator_minimum_selection_witness :
    (handleSubmit okProvider "101" "09:00" "01.01.2024, 09:00:00" rejectState =
      { state := { rejectState with error := validationError }
        savedRecord := none
        notification := none
        log := none })
    ∧ (handleSubmit okProvider "101" "09:00" "01.01.2024, 09:00:00" okState).savedRecord.isSome
        = true :=
  ⟨(validator_minimum_selection okProvider "101" "09:00" "01.01.2024, 09:00:00" rejectState).1 rfl,
   (validator_minimum_selection okProvider "101" "09:00" "01.01.2024, 09:00:00" okState).2 rfl⟩

/-- C6: when validation fails, the result sets the visible validation
error and keeps the draft, the photos and the completion flag entirely
unchanged; no record is saved, no notification dispatched, nothing
logged. -/
theorem rejected_submission_preserves_state (provider : EmailPayload → Except String Unit)
    (rp nt nd : String) (st : FormState)
    (h : hasSelectedCleaning st.formData = false) :
    handleSubmit provider rp nt nd st =
      { state :=
          { completedToday := st.completedToday
            error := validationError
            images := st.images
            formData := st.formData }
        savedRecord := none
        notification := none
        log := none } := by
  unfold handleSubmit
  rw [h]
  rfl

/-- C6 witness: submitting `rejectState` (all booleans false, one photo,
non-empty notes) sets the error and leaves every other field as it was. -/
theorem rejected_submission_preserves_state_witness :
    handleSubmit okProvider "101" "09:00" "01.01.2024, 09:00:00" rejectState =
      { state :=
          { completedToday := rejectState.completedToday
            error := validationError
            images := rejectState.images
            formData := rejectState.formData }
        savedRecord := none
        notification := none
        log := none } :=
  rejected_submission_preserves_state okProvider "101" "09:00" "01.01.2024, 09:00:00"
    rejectState rfl

/-- C7: `completedToday` after a submission equals the disjunction of the
validation outcome with its previous value, so it flips to true on every
successful submission and is never reset to false by `handleSubmit`; and
a record is saved exactly when validation passes, independently of
`completedToday`, so a second commit for the same room on the same day
is permitted and leaves the flag true. -/
theorem completion_state_monotone (provider : EmailPayload → Except String Unit)
    (rp nt nd : String) (st : FormState) :
    (handleSubmit provider rp nt nd st).state.completedToday
      = (hasSelectedCleaning st.formData || st.completedToday)
    ∧ (handleSubmit provider rp nt nd st).savedRecord.isSome
      = hasSelectedCleaning st.formData := by
  cases h : hasSelectedCleaning st.formData <;>
    · unfold handleSubmit
      rw [h]
      exact ⟨rfl, rfl⟩

/-- C2: on a submission that passes validation, a notification is
dispatched exactly when the trimmed notes are non-empty or at least one
photo is attached. -/
theorem notification_trigger (provider : EmailPayload → Except String Unit)
    (rp nt nd : String) (st : FormState)
    (h : hasSelectedCleaning st.formData = true) :
    (handleSubmit provider rp nt nd st).notification.isSome
      = (jsTrim st.formData.notes != "" || st.images.length > 0) := by
  unfold handleSubmit
  rw [h]
  cases hc : (jsTrim st.formData.notes != "" || (decide (st.images.length > 0))) <;>
    simp [hc]

/-- C2 witness: `wsState` passes validation with whitespace-only notes
and no photos, and no notification is dispatched. -/
theorem notification_trigger_witness :
    (handleSubmit okProvider "101" "09:00" "01.01.2024, 09:00:00" wsState).notification.isSome
      = false :=
  (notification_trigger okProvider "101" "09:00" "01.01.2024, 09:00:00" wsState rfl).trans
    (by decide)

/-- C3: for every provider oracle — in particular one that always raises
a delivery error — a validated submission still hands the time-stamped
record to the sink and still sets `completedToday`; the resulting state
and saved record are identical to those produced with an always-ok
provider, so a delivery failure is absorbed and never blocks or alters
the commit. -/
theorem notification_failure_never_blocks_commit (provider : EmailPayload → Except String Unit)
    (rp nt nd : String) (st : FormState)
    (h : hasSelectedCleaning st.formData = true) :
    (handleSubmit provider rp nt nd st).savedRecord = some { st.formData with time := nt }
    ∧ (handleSubmit provider rp nt nd st).state.completedToday = true
    ∧ (handleSubmit provider rp nt nd st).state
        = (handleSubmit okProvider rp nt nd st).state
    ∧ (handleSubmit provider rp nt nd st).savedRecord
        = (handleSubmit okProvider rp nt nd st).savedRecord := by
  unfold handleSubmit
  rw [h]
  exact ⟨rfl, rfl, rfl, rfl⟩

/-- C3 witness: submitting `noteState` (notes and photos attached) with
the always-failing provider still saves the stamped record and sets the
completion flag. -/
theorem notification_failure_never_blocks_commit_witness :
    (handleSubmit failProvider "101" "09:00" "01.01.2024, 09:00:00" noteState).savedRecord
        = some { noteState.formData with time := "09:00" }
    ∧ (handleSubmit failProvider "101" "09:00" "01.01.2024, 09:00:00" noteState).state.completedToday
        = true :=
  ⟨(notification_failure_never_blocks_commit failProvider "101" "09:00" "01.01.2024, 09:00:00"
      noteState rfl).1,
   (notification_failure_never_blocks_commit failProvider "101" "09:00" "01.01.2024, 09:00:00"
      noteState rfl).2.1⟩

/-- C5 counterexample: submitting `okState` (whose draft still carries
its mount time "08:00") at wall-clock time "09:15" stamps the saved
record with "09:15", but the draft's `time` field is left at "08:00",
not the now-current time — falsifying the claim's conjunction at this
input. -/
theorem draft_time_not_restamped_counterexample :
    ¬ ((handleSubmit okProvider "101" "09:15" "01.01.2024, 09:15:00" okState).savedRecord
          = some { okState.formData with time := "09:15" }
        ∧ (handleSubmit okProvider "101" "09:15" "01.01.2024, 09:15:00"
            okState).state.formData.time = "09:15") := by
  decide

/-- C5 amended: on every successful commit the record handed to the sink
is the draft stamped with the current wall-clock time, the photo list is
emptied, the five checklist booleans and the notes are reset, and the
draft's `date`, `roomNumber`, `staffName` and its previous `time` field
are preserved unchanged (the draft's `time` is not restamped; only the
saved record carries the commit time). -/
theorem post_commit_record_and_reset (provider : EmailPayload → Except String Unit)
    (rp nt nd : String) (st : FormState)
    (h : hasSelectedCleaning st.formData = true) :
    (handleSubmit provider rp nt nd st).savedRecord = some { st.formData with time := nt }
    ∧ (handleSubmit provider rp nt nd st).state.images = []
    ∧ (handleSubmit provider rp nt nd st).state.formData
        = { st.formData with
            visualCleaning := false
            maintenanceCleaning := false
            basicRoomCleaning := false
            bedCleaning := false
            windowsCurtainsCleaning := false
            notes := "" }
    ∧ (handleSubmit provider rp nt nd st).state.formData.date = st.formData.date
    ∧ (handleSubmit provider rp nt nd st).state.formData.roomNumber = st.formData.roomNumber
    ∧ (handleSubmit provider rp nt nd st).state.formData.staffName = st.formData.staffName
    ∧ (handleSubmit provider rp nt nd st).state.formData.time = st.formData.time := by
  unfold handleSubmit
  rw [h]
  exact ⟨rfl, rfl, rfl, rfl, rfl, rfl, rfl⟩

/-- C5 amended witness: the instantiation of the amended reset theorem at
`okState` and commit time "09:15". -/
theorem post_commit_record_and_reset_witness :
    (handleSubmit okProvider "101" "09:15" "01.01.2024, 09:15:00" okState).savedRecord
        = some { okState.formData with time := "09:15" }
    ∧ (handleSubmit okProvider "101" "09:15" "01.01.2024, 09:15:00" okState).state.images = []
    ∧ (handleSubmit okProvider "101" "09:15" "01.01.2024, 09:15:00" okState).state.formData
        = { okState.formData with
            visualCleaning := false
            maintenanceCleaning := false
            basicRoomCleaning := false
            bedCleaning := false
            windowsCurtainsCleaning := false
            notes := "" }
    ∧ (handleSubmit okProvider "101" "09:15" "01.01.2024, 09:15:00" okState).state.formData.date
        = okState.formData.date
    ∧ (handleSubmit okProvider "101" "09:15" "01.01.2024, 09:15:00"
        okState).state.formData.roomNumber = okState.formData.roomNumber
    ∧ (handleSubmit okProvider "101" "09:15" "01.01.2024, 09:15:00"
        okState).state.formData.staffName = okState.formData.staffName
    ∧ (handleSubmit okProvider "101" "09:15" "01.01.2024, 09:15:00" okState).state.formData.time
        = okState.formData.time :=
  post_commit_record_and_reset okProvider "101" "09:15" "01.01.2024, 09:15:00" okState rfl

/-- C4 counterexample: `classify "318G1"` is special, but its label is
the table's entry "Gäste WC", not "Guest WC", so the claim's example
fails as stated. -/
theorem classify_english_label_counterexample :
    ¬ ((classify "318G1").isSpecial = true ∧ (classify "318G1").label = "Guest WC") := by
  decide

/-- C4 amended: `classify` is total on all strings; it returns the table
entry for the last two characters with `isSpecial = true` when the
lookup hits — e.g. `classify "318G1"` is special with label "Gäste WC"
(the table's label, not the English gloss "Guest WC") — and the
identifier itself verbatim with `isSpecial = false` otherwise, e.g.
`classify "318"`; strings shorter than two characters miss the lookup
and classify as standard. -/
theorem classify_total_suffix_table (s : String) :
    classify s =
      { label := (specialRooms.lookup (jsSliceLast2 s)).getD s
        isSpecial := (specialRooms.lookup (jsSliceLast2 s)).isSome }
    ∧ classify "318G1" = { label := "Gäste WC", isSpecial := true }
    ∧ classify "318" = { label := "318", isSpecial := false }
    ∧ (s.data.length < 2 → (classify s).isSpecial = false) := by
  have hlabel : getRoomLabel s = (specialRooms.lookup (jsSliceLast2 s)).getD s := by
    unfold getRoomLabel
    cases specialRooms.lookup (jsSliceLast2 s) <;> rfl
  refine ⟨?_, by decide, by decide, ?_⟩
  · unfold classify
    rw [hlabel, ← lookup_isSome_eq_isSpecialRoom]
  · intro hlen
    have h2 : ∀ (a b : Char), ¬ List.IsSuffix [a, b] s.data := by
      intro a b hsuf
      have hle := hsuf.length_le
      simp only [List.length_cons, List.length_nil] at hle
      omega
    simp [classify, isSpecialRoom, h2]

/-- C4 amended witness: the one-character identifier "3" is shorter than
two characters and classifies as standard. -/
theorem classify_total_suffix_table_witness :
    ("3" : String).data.length < 2 ∧ (classify "3").isSpecial = false :=
  ⟨by decide, (classify_total_suffix_table "3").2.2.2 (by decide)⟩

/-- C8: whenever a notification is dispatched, its payload is exactly the
fixed recipient address, the room-number prop, the raw notes text, the
photos joined into one newline-delimited block, and the dispatch-time
locale timestamp `nd` — not the record's `time` field — together with
the fixed service, template and key identifiers. -/
theorem notification_payload_contents (provider : EmailPayload → Except String Unit)
    (rp nt nd : String) (st : FormState)
    (h : hasSelectedCleaning st.formData = true)
    (htrig : (jsTrim st.formData.notes != "" || st.images.length > 0) = true) :
    (handleSubmit provider rp nt nd st).notification =
      some { to_email := "b.marconi@kv-vorderpfalz.drk.de"
             room_number := rp
             notes := st.formData.notes
             images := String.intercalate "\n" st.images
             date := nd
             service_id := "service_drk"
             template_id := "template_notes"
             user_id := "your_public_key" } := by
  unfold handleSubmit
  rw [h]
  rw [if_neg (by simp : ¬ ((!true) = true))]
  dsimp only
  rw [if_pos htrig]
  show some (sendEmailNotification provider st.formData.notes rp st.images nd).1 = _
  rw [sendEmailNotification_fst]
  rfl

/-- C8 witness: the payload dispatched for `noteState` at dispatch time
"01.01.2024, 09:00:00". -/
theorem notification_payload_contents_witness :
    (handleSubmit okProvider "101" "09:00" "01.01.2024, 09:00:00" noteState).notification =
      some { to_email := "b.marconi@kv-vorderpfalz.drk.de"
             room_number := "101"
             notes := noteState.formData.notes
             images := String.intercalate "\n" noteState.images
             date := "01.01.2024, 09:00:00"
             service_id := "service_drk"
             template_id := "template_notes"
             user_id := "your_public_key" } :=
  notification_payload_contents okProvider "101" "09:00" "01.01.2024, 09:00:00" noteState
    rfl (by decide)

/-- C9: for every input, the payload built by the dispatcher carries the
same fixed service identifier, template identifier, public key and
recipient address — they are literals embedded in
`sendEmailNotification`, taken from no external configuration. -/
theorem email_config_constants (notes roomNumber : String) (images : List String) (now : String) :
    (buildTemplateParams notes roomNumber images now).service_id = "service_drk"
    ∧ (buildTemplateParams notes roomNumber images now).template_id = "template_notes"
    ∧ (buildTemplateParams notes roomNumber images now).user_id = "your_public_key"
    ∧ (buildTemplateParams notes roomNumber images now).to_email
        = "b.marconi@kv-vorderpfalz.drk.de" :=
  ⟨rfl, rfl, rfl, rfl⟩

/-- C10: for every room-identifier string, the `specialRooms` lookup on
the last two characters used by `getRoomLabel` succeeds exactly when the
regex test of `isSpecialRoom` matches, so the two classification
mechanisms always agree. -/
theorem suffix_lookup_agrees_with_regex (s : String) :
    (specialRooms.lookup (jsSliceLast2 s)).isSome = isSpecialRoom s :=
  lookup_isSome_eq_isSpecialRoom s

end CleaningForm
